import Mathlib

/-!
Verification of the bulk anniversary resolution pipeline of the
movie-nerd-tools browser extension (`src/content.tsx`).

The development shallowly embeds the list-page logic of `initListPage`
together with the pure date helpers `calculateNextAnniversary` and
`calculateNextMilestoneAnniversary`.  JavaScript `Date` values are modelled
as calendar records (`JsDate`); comparisons between `Date`s (which compare
epoch milliseconds) are modelled by `JsDate.getTime`, an order- and
equality-faithful rank for valid dates.  Asynchronous effects (network
fetch, `chrome.storage.local`) are modelled by explicit oracles and state
passing; the per-batch concurrency of `Promise.all` settles results in
input index order, which is how it is embedded here.
-/

/-- Gregorian leap-year test, as used by JavaScript `Date`. -/
def isLeapYear (y : Int) : Bool :=
  (y % 4 == 0 && y % 100 != 0) || y % 400 == 0

/-- Number of days of month `m` (0-based, January = 0) in year `y`,
as realised by JavaScript `Date` normalisation. -/
def daysInMonth (y : Int) (m : Nat) : Nat :=
  match m with
  | 1 => if isLeapYear y then 29 else 28
  | 3 => 30
  | 5 => 30
  | 8 => 30
  | 10 => 30
  | _ => 31

/-- Model of a JavaScript `Date` value: calendar year, 0-based month,
1-based day of month, and milliseconds past local midnight. -/
structure JsDate where
  year : Int
  month : Nat
  day : Nat
  timeMs : Nat
deriving DecidableEq, Repr

/-- A `JsDate` is valid when its fields describe a real calendar instant;
JavaScript `Date` objects are always normalised to this form. -/
def JsDate.Valid (d : JsDate) : Prop :=
  d.month < 12 ∧ 1 ≤ d.day ∧ d.day ≤ daysInMonth d.year d.month ∧ d.timeMs < 86400000

instance (d : JsDate) : Decidable d.Valid :=
  inferInstanceAs (Decidable (_ ∧ _ ∧ _ ∧ _))

/-- Model of `Date.prototype.setFullYear` on a date that is valid for its
own year: month and day-of-month are kept, and the only possible overflow
is February 29 in a non-leap target year, which JavaScript normalises to
March 1. -/
def JsDate.setFullYear (d : JsDate) (y : Int) : JsDate :=
  if d.month = 1 ∧ d.day = 29 ∧ ¬ isLeapYear y then
    { year := y, month := 2, day := 1, timeMs := d.timeMs }
  else
    { year := y, month := d.month, day := d.day, timeMs := d.timeMs }

/-- Order- and equality-faithful model of `Date.prototype.getTime`: for
valid dates, the usual epoch-millisecond comparison of two JavaScript
`Date`s agrees with comparing these ranks (lexicographic in year, month,
day, time-of-day). -/
def JsDate.getTime (d : JsDate) : Int :=
  86400000 * (32 * (12 * d.year + (d.month : Int)) + (d.day : Int)) + (d.timeMs : Int)

/-- Two dates fall on the same month and day of month. -/
def sharesMonthDay (a b : JsDate) : Prop :=
  a.month = b.month ∧ a.day = b.day

instance (a b : JsDate) : Decidable (sharesMonthDay a b) :=
  inferInstanceAs (Decidable (_ ∧ _))

/-- `calculateNextAnniversary` from `src/content.tsx` (lines 361-374).
`today` is the ambient `new Date()`; the function copies the release date,
moves it to the current year, and bumps it one further year when the
result is strictly before `today` (a JavaScript `<` on `Date`s, i.e. an
epoch-millisecond comparison). -/
def calculateNextAnniversary (today releaseDate : JsDate) : JsDate :=
  let nextAnniversary := releaseDate.setFullYear today.year
  if nextAnniversary.getTime < today.getTime then
    nextAnniversary.setFullYear (today.year + 1)
  else
    nextAnniversary

/-- `calculateNextMilestoneAnniversary` from `src/content.tsx`
(lines 376-391).  `Math.ceil(yearsSinceRelease / 5) * 5` on an integer
argument is `⌈x/5⌉ * 5`, embedded as `(x + 4).fdiv 5 * 5` (floor division).
Note that the second `setFullYear` of the source acts on the already
year-shifted `nextMilestone` object, which is mirrored here. -/
def calculateNextMilestoneAnniversary (today releaseDate : JsDate) :
    JsDate × Int :=
  let yearsSinceRelease : Int := today.year - releaseDate.year
  let nextMilestoneYears : Int := ((yearsSinceRelease + 4).fdiv 5) * 5
  let nextMilestone := releaseDate.setFullYear (releaseDate.year + nextMilestoneYears)
  if nextMilestone.getTime < today.getTime then
    (nextMilestone.setFullYear (releaseDate.year + nextMilestoneYears + 5),
      nextMilestoneYears + 5)
  else
    (nextMilestone, nextMilestoneYears)

theorem daysInMonth_le_31 (y : Int) (m : Nat) : daysInMonth y m ≤ 31 := by
  unfold daysInMonth
  split <;> first | omega | (split <;> omega)

theorem daysInMonth_eq_of_ne_feb (y z : Int) (m : Nat) (hm : m ≠ 1) :
    daysInMonth y m = daysInMonth z m := by
  unfold daysInMonth
  split <;> simp_all

theorem JsDate.Valid.setFullYear {d : JsDate} (hd : d.Valid) (y : Int) :
    (d.setFullYear y).Valid := by
  obtain ⟨h1, h2, h3, h4⟩ := hd
  unfold JsDate.Valid JsDate.setFullYear
  split
  next h =>
    dsimp only
    refine ⟨by omega, by omega, ?_, h4⟩
    simp only [daysInMonth]
    omega
  next h =>
    dsimp only
    refine ⟨h1, h2, ?_, h4⟩
    by_cases hm : d.month = 1
    · rw [hm] at h3 h ⊢
      simp only [daysInMonth] at h3 ⊢
      rcases Bool.eq_false_or_eq_true (isLeapYear y) with hy | hy <;>
        rcases Bool.eq_false_or_eq_true (isLeapYear d.year) with hz | hz <;>
          simp [hy, hz] at h3 h ⊢ <;> omega
    · rw [daysInMonth_eq_of_ne_feb y d.year d.month hm]
      exact h3

theorem JsDate.setFullYear_year (d : JsDate) (y : Int) :
    (d.setFullYear y).year = y := by
  unfold JsDate.setFullYear
  split <;> rfl

theorem JsDate.setFullYear_timeMs (d : JsDate) (y : Int) :
    (d.setFullYear y).timeMs = d.timeMs := by
  unfold JsDate.setFullYear
  split <;> rfl

theorem JsDate.getTime_lt_of_year_lt {a b : JsDate} (ha : a.Valid) (hb : b.Valid)
    (h : a.year < b.year) : a.getTime < b.getTime := by
  obtain ⟨ha1, ha2, ha3, ha4⟩ := ha
  obtain ⟨hb1, hb2, hb3, hb4⟩ := hb
  have ha5 : a.day ≤ 31 := le_trans ha3 (daysInMonth_le_31 _ _)
  have hb5 : b.day ≤ 31 := le_trans hb3 (daysInMonth_le_31 _ _)
  unfold JsDate.getTime
  omega

/-- The `MovieAnniversary` record of `src/content.tsx` (lines 228-233). -/
structure MovieAnniversary where
  title : String
  releaseDate : JsDate
  nextAnniversary : JsDate
  url : String
deriving DecidableEq, Repr

/-- One entry of the `CachedMovieData` document (lines 235-241): the source
stores `releaseDate` and `nextAnniversary` as ISO strings produced by
`toISOString` and parses them back with `new Date`, a lossless round trip,
so they are embedded directly as dates; `lastFetched` is an epoch-millisecond
timestamp from `Date.now()`. -/
structure CacheEntry where
  releaseDate : JsDate
  lastFetched : Int
  nextAnniversary : JsDate
deriving DecidableEq, Repr

/-- The `movie-cache` document: a key-to-entry mapping keyed by film URL.
Modelled as an association list where an update prepends its key
(lookup-equivalent to JavaScript object assignment). -/
def Cache := List (String × CacheEntry)

instance : DecidableEq Cache := inferInstanceAs (DecidableEq (List _))

/-- `CACHE_EXPIRY = 24 * 60 * 60 * 1000` (line 731). -/
def CACHE_EXPIRY : Int := 24 * 60 * 60 * 1000

/-- The cache-validity test of line 733:
`Date.now() - movieCache.lastFetched < CACHE_EXPIRY`. -/
def cacheUsable (now lastFetched : Int) : Bool :=
  now - lastFetched < CACHE_EXPIRY

/-- Whether the cache holds a usable (present and unexpired) entry for a
URL, i.e. the combined condition `movieCache && Date.now() - ... < CACHE_EXPIRY`. -/
def hasValidEntry (now : Int) (cache : Cache) (movieUrl : String) : Bool :=
  match List.lookup movieUrl cache with
  | some movieCache => cacheUsable now movieCache.lastFetched
  | none => false

/-- Outcome of the fetch-and-parse chain of lines 746-756 for one URL:
the fetch (or reading its body) may reject, the fetched page may lack a
`.release-table .date` element, its text may be empty, or `new Date` on it
may be invalid; otherwise a release date is obtained. -/
inductive FetchOutcome where
  | networkError
  | noDateElement
  | emptyText
  | invalidDate
  | ok (releaseDate : JsDate)
deriving DecidableEq, Repr

/-- A `.poster-container` element as consumed by lines 722-724: the `href`
of its `a` child (if any) and the `alt` text of its `img` child (if any). -/
structure PosterElement where
  link : Option String
  title : Option String
deriving DecidableEq, Repr

/-- Ambient environment of one resolution pass: the current `Date.now()`
and `new Date()`, the network fetch oracle, and whether the
`chrome.storage.local` `get`/`set` calls reject. -/
structure ResolveEnv where
  now : Int
  today : JsDate
  fetch : String → FetchOutcome
  getFails : Bool
  setFails : Bool

/-- The fetch path of one item (lines 745-777): fetch the page, extract and
parse the release date, compute the next anniversary, write the cache entry
(a rejected `set` is caught by the surrounding `try`, yielding `null`), and
return the `MovieAnniversary`.  The third component records that a network
fetch was issued. -/
def resolveFetch (env : ResolveEnv) (cache : Cache) (movieUrl title : String) :
    Option MovieAnniversary × Cache × Bool :=
  match env.fetch movieUrl with
  | .networkError => (none, cache, true)
  | .noDateElement => (none, cache, true)
  | .emptyText => (none, cache, true)
  | .invalidDate => (none, cache, true)
  | .ok releaseDate =>
    let nextAnniversary := calculateNextAnniversary env.today releaseDate
    if env.setFails then (none, cache, true)
    else
      (some ⟨title, releaseDate, nextAnniversary, movieUrl⟩,
        (movieUrl, ⟨releaseDate, env.now, nextAnniversary⟩) :: cache, true)

/-- Resolution of one `.poster-container` (the async closure of lines
721-781).  An element without a link or with a missing/empty title yields
`null` (line 724; an empty `alt` string is falsy in JavaScript).  The whole
cache/fetch sequence sits in a single `try`: a rejected storage `get`
therefore yields `null` without reaching the fetch.  On a present,
unexpired cache entry the stored dates are returned without fetching
(lines 733-743); otherwise the fetch path runs.  Components: the item
result, the cache document after the item, and whether a fetch was issued. -/
def resolveMovie (env : ResolveEnv) (cache : Cache) (el : PosterElement) :
    Option MovieAnniversary × Cache × Bool :=
  match el.link, el.title with
  | some movieUrl, some title =>
    if title = "" then (none, cache, false)
    else if env.getFails then (none, cache, false)
    else
      match List.lookup movieUrl cache with
      | some movieCache =>
        if cacheUsable env.now movieCache.lastFetched then
          (some ⟨title, movieCache.releaseDate, movieCache.nextAnniversary, movieUrl⟩,
            cache, false)
        else resolveFetch env cache movieUrl title
      | none => resolveFetch env cache movieUrl title
  | _, _ => (none, cache, false)

/-- One batch of concurrent resolutions (`batch.map(...)` plus
`Promise.all`, lines 721-784).  `Promise.all` delivers the settled results
in input index order, which the sequentialised embedding reflects; cache
writes thread left to right. -/
def resolveBatch (env : ResolveEnv) : Cache → List PosterElement →
    List (Option MovieAnniversary) × Cache
  | cache, [] => ([], cache)
  | cache, el :: rest =>
    let r := resolveMovie env cache el
    let rs := resolveBatch env r.2.1 rest
    (r.1 :: rs.1, rs.2)

/-- Observable scheduler actions: a progress report
(`progressText.textContent = ...`, line 786) and an inter-batch suspension
(`setTimeout`, line 792). -/
inductive Event where
  | progress (processed total : Nat)
  | delay (ms : Nat)
deriving DecidableEq, Repr

/-- The batch loop of lines 719-794, expressed over the pre-chunked list of
batches: resolve a batch, count `processedMovies += batch.length`, report
progress once, keep the non-null results, and suspend for the inter-batch
delay unless this was the final batch (`if (i + BATCH_SIZE < movieArray.length)`). -/
def runBatchesAux (env : ResolveEnv) (delayMs total : Nat) :
    Nat → Cache → List (List PosterElement) →
    List MovieAnniversary × Cache × List Event
  | _, cache, [] => ([], cache, [])
  | processed, cache, batch :: rest =>
    let br := resolveBatch env cache batch
    let processed1 := processed + batch.length
    let rec0 := runBatchesAux env delayMs total processed1 br.2 rest
    (br.1.filterMap id ++ rec0.1, rec0.2.1,
      Event.progress processed1 total ::
        (if rest.isEmpty then rec0.2.2 else Event.delay delayMs :: rec0.2.2))

/-- `movieArray.slice(i, i + BATCH_SIZE)` chunking of the loop at line
719-720: contiguous batches of `B` elements (the last possibly shorter).
Faithful to the JavaScript loop for `B ≥ 1` (with `B = 0` the source loop
would not terminate). -/
def chunkList (B : Nat) : List α → List (List α)
  | [] => []
  | x :: xs => (x :: xs.take (B - 1)) :: chunkList B (xs.drop (B - 1))
termination_by l => l.length
decreasing_by simp [List.length_drop]; omega

/-- `BATCH_SIZE` (line 678). -/
def BATCH_SIZE : Nat := 5

/-- `DELAY_BETWEEN_BATCHES` (line 679). -/
def DELAY_BETWEEN_BATCHES : Nat := 1000

/-- The sort key of the comparator at line 803:
`a.nextAnniversary.getTime()`. -/
def annivKey (m : MovieAnniversary) : Int :=
  m.nextAnniversary.getTime

/-- The order realised by `movies.sort((a, b) => a.nextAnniversary.getTime()
- b.nextAnniversary.getTime())`. -/
def annivLE (a b : MovieAnniversary) : Prop :=
  annivKey a ≤ annivKey b

instance : DecidableRel annivLE :=
  fun a b => inferInstanceAs (Decidable (annivKey a ≤ annivKey b))

instance : IsTotal MovieAnniversary annivLE :=
  ⟨fun a b => le_total (annivKey a) (annivKey b)⟩

instance : IsTrans MovieAnniversary annivLE :=
  ⟨fun _ _ _ h1 h2 => le_trans h1 h2⟩

/-- `movies.sort(...)` at line 803.  ECMAScript `Array.prototype.sort` is a
stable sort; with the ascending numeric comparator it is modelled by stable
insertion sort under `annivLE`. -/
def sortMovies : List MovieAnniversary → List MovieAnniversary :=
  List.insertionSort annivLE

/-- The whole click-handler pipeline of `initListPage` (lines 673-827),
abstracted over the scheduler parameters that the source fixes to
`BATCH_SIZE` and `DELAY_BETWEEN_BATCHES`: chunk the poster elements, run
the batch loop, and sort the collected results by next anniversary.
Returns the sorted movie list, the final cache document, and the event
trace. -/
def runListPage (env : ResolveEnv) (cache : Cache) (els : List PosterElement)
    (B delayMs : Nat) : List MovieAnniversary × Cache × List Event :=
  let r := runBatchesAux env delayMs els.length 0 cache (chunkList B els)
  (sortMovies r.1, r.2.1, r.2.2)

/-- The `processedCount` values carried by the progress reports of a trace. -/
def progressCounts (evs : List Event) : List Nat :=
  evs.filterMap fun e =>
    match e with
    | .progress p _ => some p
    | .delay _ => none

/-- Running totals `p + l₁, p + l₁ + l₂, ...` of a list of batch sizes. -/
def runningTotals (p : Nat) : List Nat → List Nat
  | [] => []
  | l :: ls => (p + l) :: runningTotals (p + l) ls

/-- Modelled from the spec: the schedule required of the Batch Scheduler —
one progress report per batch carrying the cumulative processed count,
followed by an inter-batch suspension except after the final batch. -/
def specSchedule (total d : Nat) : Nat → List Nat → List Event
  | _, [] => []
  | p, [l] => [Event.progress (p + l) total]
  | p, l :: l2 :: ls =>
    Event.progress (p + l) total :: Event.delay d ::
      specSchedule total d (p + l) (l2 :: ls)


theorem chunkList_flatten (B : Nat) (l : List α) : (chunkList B l).flatten = l := by
  induction l using chunkList.induct B with
  | case1 => simp [chunkList]
  | case2 x xs ih =>
    rw [chunkList]
    simp only [List.flatten_cons, ih]
    simp [List.take_append_drop]

theorem chunkList_ne_nil_mem {B : Nat} {l : List α} {c : List α}
    (hc : c ∈ chunkList B l) : c ≠ [] := by
  induction l using chunkList.induct B with
  | case1 => simp [chunkList] at hc
  | case2 x xs ih =>
    rw [chunkList] at hc
    rcases List.mem_cons.mp hc with h | h
    · simp [h]
    · exact ih h

theorem chunkList_length_le_mem {B : Nat} (hB : 0 < B) {l : List α} {c : List α}
    (hc : c ∈ chunkList B l) : c.length ≤ B := by
  induction l using chunkList.induct B with
  | case1 => simp [chunkList] at hc
  | case2 x xs ih =>
    rw [chunkList] at hc
    rcases List.mem_cons.mp hc with h | h
    · subst h
      simp only [List.length_cons, List.length_take]
      omega
    · exact ih h

theorem chunkList_length (B : Nat) (hB : 0 < B) (l : List α) :
    (chunkList B l).length = (l.length + B - 1) / B := by
  induction l using chunkList.induct B with
  | case1 =>
    rw [chunkList]
    simp only [List.length_nil, Nat.zero_add]
    exact (Nat.div_eq_of_lt (by omega)).symm
  | case2 x xs ih =>
    rw [chunkList]
    simp only [List.length_cons, ih, List.length_drop]
    have hR : xs.length + 1 + B - 1 = xs.length + B := by omega
    rw [hR, Nat.add_div_right _ hB]
    rcases Nat.lt_or_ge xs.length (B - 1) with h | h
    · have e1 : xs.length - (B - 1) + B - 1 = B - 1 := by omega
      have e2 : (B - 1) / B = 0 := Nat.div_eq_of_lt (by omega)
      have e3 : xs.length / B = 0 := Nat.div_eq_of_lt (by omega)
      rw [e1, e2, e3]
    · have e1 : xs.length - (B - 1) + B - 1 = xs.length := by omega
      rw [e1]

theorem progressCounts_cons_progress (c t : Nat) (l : List Event) :
    progressCounts (Event.progress c t :: l) = c :: progressCounts l := rfl

theorem progressCounts_cons_delay (d : Nat) (l : List Event) :
    progressCounts (Event.delay d :: l) = progressCounts l := rfl

theorem runBatchesAux_events_progress (env : ResolveEnv) (delayMs total : Nat) :
    ∀ (chunks : List (List PosterElement)) (p : Nat) (cache : Cache),
      progressCounts (runBatchesAux env delayMs total p cache chunks).2.2
        = runningTotals p (chunks.map List.length) := by
  intro chunks
  induction chunks with
  | nil => intro p cache; rfl
  | cons batch rest ih =>
    intro p cache
    show progressCounts
        (Event.progress (p + batch.length) total ::
          (if rest.isEmpty then
              (runBatchesAux env delayMs total (p + batch.length)
                (resolveBatch env cache batch).2 rest).2.2
            else
              Event.delay delayMs ::
                (runBatchesAux env delayMs total (p + batch.length)
                  (resolveBatch env cache batch).2 rest).2.2))
      = runningTotals p (List.map List.length (batch :: rest))
    simp only [List.map_cons, runningTotals]
    by_cases hr : rest.isEmpty
    · rw [if_pos hr, progressCounts_cons_progress, ih]
    · rw [if_neg hr, progressCounts_cons_progress, progressCounts_cons_delay, ih]

theorem runningTotals_length (p : Nat) (ls : List Nat) :
    (runningTotals p ls).length = ls.length := by
  induction ls generalizing p with
  | nil => rfl
  | cons l ls ih => simp [runningTotals, ih]

theorem runningTotals_chain (p : Nat) (ls : List Nat) (h : ∀ l ∈ ls, 0 < l) :
    List.Chain' (· < ·) (runningTotals p ls) := by
  induction ls generalizing p with
  | nil => exact List.chain'_nil
  | cons l ls ih =>
    rcases ls with _ | ⟨l2, ls2⟩
    · exact List.chain'_singleton _
    · have h2 : 0 < l2 := h l2 (by simp)
      have htail := ih (p + l) (fun x hx => h x (List.mem_cons_of_mem _ hx))
      show List.Chain' (· < ·)
        ((p + l) :: (p + l + l2) :: runningTotals (p + l + l2) ls2)
      refine List.chain'_cons.mpr ⟨by omega, ?_⟩
      exact htail

theorem runningTotals_getLast (p : Nat) (ls : List Nat) (h : ls ≠ []) :
    (runningTotals p ls).getLast? = some (p + ls.sum) := by
  induction ls generalizing p with
  | nil => simp at h
  | cons l ls ih =>
    rcases ls with _ | ⟨l2, ls2⟩
    · show ([p + l] : List Nat).getLast? = some (p + [l].sum)
      simp
    · show ((p + l) :: (p + l + l2) :: runningTotals (p + l + l2) ls2).getLast?
        = some (p + (l :: l2 :: ls2).sum)
      rw [List.getLast?_cons_cons]
      have e : ((p + l + l2) :: runningTotals (p + l + l2) ls2)
          = runningTotals (p + l) (l2 :: ls2) := rfl
      rw [e, ih (p + l) (by simp)]
      simp only [List.sum_cons]
      congr 1
      omega

theorem resolveBatch_append (env : ResolveEnv) (cache : Cache)
    (l1 l2 : List PosterElement) :
    resolveBatch env cache (l1 ++ l2)
      = ((resolveBatch env cache l1).1
            ++ (resolveBatch env (resolveBatch env cache l1).2 l2).1,
          (resolveBatch env (resolveBatch env cache l1).2 l2).2) := by
  induction l1 generalizing cache with
  | nil => rfl
  | cons el rest ih =>
    show (let r := resolveMovie env cache el
          let rs := resolveBatch env r.2.1 (rest ++ l2)
          ((r.1 :: rs.1 : List (Option MovieAnniversary)), rs.2)) = _
    simp only [ih]
    rfl

theorem runBatchesAux_kept (env : ResolveEnv) (delayMs total : Nat) :
    ∀ (chunks : List (List PosterElement)) (p : Nat) (cache : Cache),
      (runBatchesAux env delayMs total p cache chunks).1
        = (resolveBatch env cache chunks.flatten).1.filterMap id := by
  intro chunks
  induction chunks with
  | nil => intro p cache; rfl
  | cons batch rest ih =>
    intro p cache
    show (resolveBatch env cache batch).1.filterMap id
        ++ (runBatchesAux env delayMs total (p + batch.length)
              (resolveBatch env cache batch).2 rest).1
      = (resolveBatch env cache ((batch :: rest).flatten)).1.filterMap id
    rw [ih, List.flatten_cons, resolveBatch_append]
    simp [List.filterMap_append]

theorem runBatchesAux_events (env : ResolveEnv) (delayMs total : Nat) :
    ∀ (chunks : List (List PosterElement)) (p : Nat) (cache : Cache),
      (runBatchesAux env delayMs total p cache chunks).2.2
        = specSchedule total delayMs p (chunks.map List.length) := by
  intro chunks
  induction chunks with
  | nil => intro p cache; rfl
  | cons batch rest ih =>
    intro p cache
    show (Event.progress (p + batch.length) total ::
          (if rest.isEmpty then
              (runBatchesAux env delayMs total (p + batch.length)
                (resolveBatch env cache batch).2 rest).2.2
            else
              Event.delay delayMs ::
                (runBatchesAux env delayMs total (p + batch.length)
                  (resolveBatch env cache batch).2 rest).2.2))
      = specSchedule total delayMs p (List.map List.length (batch :: rest))
    rcases rest with _ | ⟨b2, rest2⟩
    · rfl
    · rw [if_neg (by simp), ih]
      rfl

theorem filter_orderedInsert_key_eq (k : Int) (a : MovieAnniversary)
    (ha : annivKey a = k) (l : List MovieAnniversary)
    (hs : List.Sorted annivLE l) :
    (List.orderedInsert annivLE a l).filter (fun m => decide (annivKey m = k))
      = a :: l.filter (fun m => decide (annivKey m = k)) := by
  induction l with
  | nil => simp [List.orderedInsert, ha]
  | cons b t ih =>
    rw [List.orderedInsert]
    by_cases hab : annivLE a b
    · rw [if_pos hab]
      simp [List.filter_cons, ha]
    · rw [if_neg hab]
      have hbk : ¬ annivKey b = k := by
        unfold annivLE at hab
        omega
      simp only [List.filter_cons, hbk, decide_eq_true_eq, if_false,
        decide_eq_false_iff_not, not_false_iff, if_neg hbk]
      exact ih hs.of_cons

theorem filter_orderedInsert_key_ne (k : Int) (a : MovieAnniversary)
    (ha : ¬ annivKey a = k) (l : List MovieAnniversary) :
    (List.orderedInsert annivLE a l).filter (fun m => decide (annivKey m = k))
      = l.filter (fun m => decide (annivKey m = k)) := by
  induction l with
  | nil => simp [List.orderedInsert, ha]
  | cons b t ih =>
    rw [List.orderedInsert]
    by_cases hab : annivLE a b
    · rw [if_pos hab]
      simp [List.filter_cons, ha]
    · rw [if_neg hab]
      simp only [List.filter_cons, ih]

/-- Stability of the aggregator's sort: for every key value, the items
carrying that key appear in the output exactly as they appear in the
input. -/
theorem sortMovies_stable (l : List MovieAnniversary) (k : Int) :
    (sortMovies l).filter (fun m => decide (annivKey m = k))
      = l.filter (fun m => decide (annivKey m = k)) := by
  induction l with
  | nil => rfl
  | cons a t ih =>
    show (List.orderedInsert annivLE a (List.insertionSort annivLE t)).filter _ = _
    by_cases ha : annivKey a = k
    · rw [filter_orderedInsert_key_eq k a ha _ (List.sorted_insertionSort annivLE t)]
      rw [show (List.insertionSort annivLE t).filter (fun m => decide (annivKey m = k))
            = (sortMovies t).filter (fun m => decide (annivKey m = k)) from rfl, ih]
      simp [List.filter_cons, ha]
    · rw [filter_orderedInsert_key_ne k a ha]
      rw [show (List.insertionSort annivLE t).filter (fun m => decide (annivKey m = k))
            = (sortMovies t).filter (fun m => decide (annivKey m = k)) from rfl, ih]
      simp [List.filter_cons, ha]

theorem eq_of_perm_of_pairwise_lt (l : List MovieAnniversary) :
    ∀ l' : List MovieAnniversary, l.Perm l' →
      List.Pairwise (fun a b => annivKey a < annivKey b) l →
      List.Pairwise (fun a b => annivKey a < annivKey b) l' → l = l' := by
  induction l with
  | nil =>
    intro l' hp _ _
    exact hp.nil_eq
  | cons a t ih =>
    intro l' hp hl hl'
    rcases l' with _ | ⟨b, t'⟩
    · exact absurd hp.symm.nil_eq (by simp)
    · have hab : a = b := by
        have ha' : a ∈ b :: t' := hp.mem_iff.mp (by simp)
        have hb : b ∈ a :: t := hp.mem_iff.mpr (by simp)
        rcases List.mem_cons.mp ha' with h | h
        · exact h
        · have h1 : annivKey b < annivKey a := List.rel_of_pairwise_cons hl' h
          rcases List.mem_cons.mp hb with h2 | h2
          · exact h2.symm
          · have h3 : annivKey a < annivKey b := List.rel_of_pairwise_cons hl h2
            omega
      subst hab
      rw [ih t' hp.cons_inv hl.of_cons hl'.of_cons]

theorem sortMovies_pairwise_lt (l : List MovieAnniversary)
    (hnd : List.Pairwise (fun a b => annivKey a ≠ annivKey b) l) :
    List.Pairwise (fun a b => annivKey a < annivKey b) (sortMovies l) := by
  have hs : List.Sorted annivLE (sortMovies l) := List.sorted_insertionSort annivLE l
  have hperm : (sortMovies l).Perm l := List.perm_insertionSort annivLE l
  have hnd2 : List.Pairwise (fun a b => annivKey a ≠ annivKey b) (sortMovies l) :=
    (hperm.pairwise_iff (fun hab => Ne.symm hab)).mpr hnd
  exact (hs.and hnd2).imp (fun h => lt_of_le_of_ne h.1 h.2)

/-- When all keys are distinct, the aggregator's output is determined by
the multiset of retained items alone (input order is irrelevant). -/
theorem sortMovies_perm_invariant (l l' : List MovieAnniversary)
    (hp : l.Perm l')
    (hnd : List.Pairwise (fun a b => annivKey a ≠ annivKey b) l) :
    sortMovies l = sortMovies l' := by
  have hnd' : List.Pairwise (fun a b => annivKey a ≠ annivKey b) l' :=
    (hp.pairwise_iff (fun hab => Ne.symm hab)).mp hnd
  exact eq_of_perm_of_pairwise_lt _ _
    ((List.perm_insertionSort annivLE l).trans
      (hp.trans (List.perm_insertionSort annivLE l').symm))
    (sortMovies_pairwise_lt l hnd) (sortMovies_pairwise_lt l' hnd')

theorem resolveFetch_fetched (env : ResolveEnv) (cache : Cache) (u t : String) :
    (resolveFetch env cache u t).2.2 = true := by
  rcases hf : env.fetch u with _ | _ | _ | _ | d <;>
    by_cases hs : env.setFails <;>
      simp [resolveFetch, hf, hs]

theorem resolveMovie_eq (env : ResolveEnv) (cache : Cache) (url title : String)
    (el : PosterElement) (hl : el.link = some url) (ht : el.title = some title) :
    resolveMovie env cache el =
      (if title = "" then (none, cache, false)
        else if env.getFails then (none, cache, false)
        else
          match List.lookup url cache with
          | some movieCache =>
            if cacheUsable env.now movieCache.lastFetched then
              (some ⟨title, movieCache.releaseDate, movieCache.nextAnniversary, url⟩,
                cache, false)
            else resolveFetch env cache url title
          | none => resolveFetch env cache url title) := by
  obtain ⟨l0, t0⟩ := el
  cases hl
  cases ht
  rfl

/-- C8: a cache entry is usable exactly when `now - lastFetched` is
strictly below the fixed 24-hour constant; an entry one millisecond past
the window is unusable and sends the item down the fetch path (a network
fetch is issued). -/
theorem cache_expiry_C8 (now lf : Int) (cache : Cache) (el : PosterElement)
    (url title : String) (entry : CacheEntry) (today : JsDate)
    (fetch0 : String → FetchOutcome)
    (hl : el.link = some url) (ht : el.title = some title) (hne : title ≠ "")
    (hlook : List.lookup url cache = some entry)
    (hexp : entry.lastFetched = now - (CACHE_EXPIRY + 1)) :
    (cacheUsable now lf = true ↔ now - lf < 24 * 60 * 60 * 1000)
    ∧ CACHE_EXPIRY = 86400000
    ∧ cacheUsable now (now - (CACHE_EXPIRY + 1)) = false
    ∧ (resolveMovie ⟨now, today, fetch0, false, false⟩ cache el).2.2 = true := by
  have hexp2 : cacheUsable now entry.lastFetched = false := by
    rw [hexp]
    simp only [cacheUsable, CACHE_EXPIRY, decide_eq_false_iff_not]
    omega
  refine ⟨?_, rfl, ?_, ?_⟩
  · simp [cacheUsable, CACHE_EXPIRY]
  · simp only [cacheUsable, CACHE_EXPIRY, decide_eq_false_iff_not]
    omega
  · rw [resolveMovie_eq _ cache url title el hl ht, if_neg hne]
    show ((match List.lookup url cache with
      | some movieCache =>
        if cacheUsable now movieCache.lastFetched then
          (some ⟨title, movieCache.releaseDate, movieCache.nextAnniversary, url⟩,
            cache, false)
        else resolveFetch ⟨now, today, fetch0, false, false⟩ cache url title
      | none => resolveFetch ⟨now, today, fetch0, false, false⟩ cache url title) :
        Option MovieAnniversary × Cache × Bool).2.2 = true
    rw [hlook]
    simp only [hexp2, Bool.false_eq_true, if_false]
    exact resolveFetch_fetched _ _ _ _

/-- C8 witness: a concrete element whose cache entry is exactly
24 hours + 1 ms old is refetched. -/
theorem cache_expiry_C8_witness :
    (cacheUsable 86400001 0 = true ↔ (86400001 : Int) - 0 < 24 * 60 * 60 * 1000)
    ∧ CACHE_EXPIRY = 86400000
    ∧ cacheUsable 86400001 (86400001 - (CACHE_EXPIRY + 1)) = false
    ∧ (resolveMovie
          ⟨86400001, ⟨2025, 5, 10, 0⟩, fun _ => FetchOutcome.networkError, false, false⟩
          [("u", ⟨⟨2000, 0, 1, 0⟩, 0, ⟨2000, 0, 1, 0⟩⟩)]
          ⟨some "u", some "t"⟩).2.2 = true :=
  cache_expiry_C8 86400001 0
    [("u", ⟨⟨2000, 0, 1, 0⟩, 0, ⟨2000, 0, 1, 0⟩⟩)] ⟨some "u", some "t"⟩
    "u" "t" ⟨⟨2000, 0, 1, 0⟩, 0, ⟨2000, 0, 1, 0⟩⟩ ⟨2025, 5, 10, 0⟩
    (fun _ => FetchOutcome.networkError)
    rfl rfl (by decide) (by decide) (by decide)

/-- C10: on a cache hit the returned `nextAnniversary` is exactly the
stored, cache-write-time value — it is not recomputed against the current
date (`today` is arbitrary and unused by the hit path) — so it can lie
strictly before the current date. -/
theorem cache_hit_stored_C10 (now : Int) (today : JsDate)
    (fetch0 : String → FetchOutcome) (sf : Bool) (cache : Cache)
    (el : PosterElement) (url title : String) (entry : CacheEntry)
    (hl : el.link = some url) (ht : el.title = some title) (hne : title ≠ "")
    (hlook : List.lookup url cache = some entry)
    (hvalid : cacheUsable now entry.lastFetched = true)
    (hpast : entry.nextAnniversary.getTime < today.getTime) :
    resolveMovie ⟨now, today, fetch0, false, sf⟩ cache el
      = (some ⟨title, entry.releaseDate, entry.nextAnniversary, url⟩, cache, false)
    ∧ (⟨title, entry.releaseDate, entry.nextAnniversary, url⟩ :
          MovieAnniversary).nextAnniversary.getTime < today.getTime := by
  refine ⟨?_, hpast⟩
  rw [resolveMovie_eq _ cache url title el hl ht, if_neg hne]
  show (match List.lookup url cache with
    | some movieCache =>
      if cacheUsable now movieCache.lastFetched then
        (some ⟨title, movieCache.releaseDate, movieCache.nextAnniversary, url⟩,
          cache, false)
      else resolveFetch ⟨now, today, fetch0, false, sf⟩ cache url title
    | none => resolveFetch ⟨now, today, fetch0, false, sf⟩ cache url title)
    = (some ⟨title, entry.releaseDate, entry.nextAnniversary, url⟩, cache, false)
  rw [hlook]
  simp [hvalid]

/-- C10 witness: a valid entry whose precomputed anniversary (Jan 15 2025)
already lies before today (Jun 10 2025) is returned as stored. -/
theorem cache_hit_stored_C10_witness :
    resolveMovie
        ⟨1000, ⟨2025, 5, 10, 0⟩, fun _ => FetchOutcome.networkError, false, false⟩
        [("u", ⟨⟨2020, 0, 15, 0⟩, 500, ⟨2025, 0, 15, 0⟩⟩)]
        ⟨some "u", some "t"⟩
      = (some ⟨"t", ⟨2020, 0, 15, 0⟩, ⟨2025, 0, 15, 0⟩, "u"⟩,
          [("u", ⟨⟨2020, 0, 15, 0⟩, 500, ⟨2025, 0, 15, 0⟩⟩)], false)
    ∧ (⟨"t", ⟨2020, 0, 15, 0⟩, ⟨2025, 0, 15, 0⟩, "u"⟩ :
          MovieAnniversary).nextAnniversary.getTime < JsDate.getTime ⟨2025, 5, 10, 0⟩ :=
  cache_hit_stored_C10 1000 ⟨2025, 5, 10, 0⟩ (fun _ => FetchOutcome.networkError) false
    [("u", ⟨⟨2020, 0, 15, 0⟩, 500, ⟨2025, 0, 15, 0⟩⟩)] ⟨some "u", some "t"⟩
    "u" "t" ⟨⟨2020, 0, 15, 0⟩, 500, ⟨2025, 0, 15, 0⟩⟩
    rfl rfl (by decide) (by decide) (by decide) (by decide)

/-- C1: the scheduler partitions the input into contiguous batches of at
most `B` items whose concatenation is the original sequence, and emits
exactly `⌈N/B⌉` progress reports with strictly increasing processed
counts, the last equal to `N`. -/
theorem batching_C1 (env : ResolveEnv) (cache : Cache) (els : List PosterElement)
    (B d : Nat) (hB : 0 < B) :
    (chunkList B els).flatten = els
    ∧ (∀ c ∈ chunkList B els, c.length ≤ B)
    ∧ (progressCounts (runListPage env cache els B d).2.2).length
        = (els.length + B - 1) / B
    ∧ List.Chain' (· < ·) (progressCounts (runListPage env cache els B d).2.2)
    ∧ (els ≠ [] →
        (progressCounts (runListPage env cache els B d).2.2).getLast?
          = some els.length) := by
  have hev : (runListPage env cache els B d).2.2
      = (runBatchesAux env d els.length 0 cache (chunkList B els)).2.2 := rfl
  have hpc : progressCounts (runListPage env cache els B d).2.2
      = runningTotals 0 ((chunkList B els).map List.length) := by
    rw [hev, runBatchesAux_events_progress]
  have hpos : ∀ l ∈ (chunkList B els).map List.length, 0 < l := by
    intro l hlm
    obtain ⟨c, hc, hcl⟩ := List.mem_map.mp hlm
    have := chunkList_ne_nil_mem hc
    subst hcl
    exact List.length_pos.mpr this
  refine ⟨chunkList_flatten B els, fun c hc => chunkList_length_le_mem hB hc, ?_, ?_, ?_⟩
  · rw [hpc, runningTotals_length, List.length_map, chunkList_length B hB els]
  · rw [hpc]
    exact runningTotals_chain 0 _ hpos
  · intro hne
    have hchunk : chunkList B els ≠ [] := by
      rcases els with _ | ⟨x, xs⟩
      · exact absurd rfl hne
      · rw [chunkList]
        simp
    have hsum : ((chunkList B els).map List.length).sum = els.length := by
      rw [← List.length_flatten, chunkList_flatten]
    rw [hpc, runningTotals_getLast 0 _ (by simpa using hchunk), hsum]
    simp

/-- C1 witness: three items with batch size 2. -/
theorem batching_C1_witness :
    0 < 2
    ∧ ((chunkList 2 ([⟨none, none⟩, ⟨none, none⟩, ⟨none, none⟩] :
          List PosterElement)).flatten
        = [⟨none, none⟩, ⟨none, none⟩, ⟨none, none⟩]
      ∧ (∀ c ∈ chunkList 2 ([⟨none, none⟩, ⟨none, none⟩, ⟨none, none⟩] :
            List PosterElement), c.length ≤ 2)
      ∧ (progressCounts (runListPage
            ⟨0, ⟨2025, 5, 10, 0⟩, fun _ => FetchOutcome.networkError, false, false⟩
            [] [⟨none, none⟩, ⟨none, none⟩, ⟨none, none⟩] 2 1000).2.2).length
          = (([⟨none, none⟩, ⟨none, none⟩, ⟨none, none⟩] :
              List PosterElement).length + 2 - 1) / 2
      ∧ List.Chain' (· < ·) (progressCounts (runListPage
            ⟨0, ⟨2025, 5, 10, 0⟩, fun _ => FetchOutcome.networkError, false, false⟩
            [] [⟨none, none⟩, ⟨none, none⟩, ⟨none, none⟩] 2 1000).2.2)
      ∧ (([⟨none, none⟩, ⟨none, none⟩, ⟨none, none⟩] : List PosterElement) ≠ [] →
          (progressCounts (runListPage
              ⟨0, ⟨2025, 5, 10, 0⟩, fun _ => FetchOutcome.networkError, false, false⟩
              [] [⟨none, none⟩, ⟨none, none⟩, ⟨none, none⟩] 2 1000).2.2).getLast?
            = some ([⟨none, none⟩, ⟨none, none⟩, ⟨none, none⟩] :
                List PosterElement).length)) :=
  ⟨by decide,
    batching_C1 ⟨0, ⟨2025, 5, 10, 0⟩, fun _ => FetchOutcome.networkError, false, false⟩
      [] [⟨none, none⟩, ⟨none, none⟩, ⟨none, none⟩] 2 1000 (by decide)⟩

/-- C9: the scheduler's observable trace is exactly one progress report
per batch carrying the cumulative processed count, with an inter-batch
delay after every non-final batch and none after the final one; the
configuration is `BATCH_SIZE = 5` and `DELAY_BETWEEN_BATCHES = 1000` ms. -/
theorem schedule_C9 (env : ResolveEnv) (cache : Cache) (els : List PosterElement) :
    (runListPage env cache els BATCH_SIZE DELAY_BETWEEN_BATCHES).2.2
      = specSchedule els.length DELAY_BETWEEN_BATCHES 0
          ((chunkList BATCH_SIZE els).map List.length)
    ∧ BATCH_SIZE = 5 ∧ DELAY_BETWEEN_BATCHES = 1000 := by
  refine ⟨?_, rfl, rfl⟩
  show (runBatchesAux env DELAY_BETWEEN_BATCHES els.length 0 cache
      (chunkList BATCH_SIZE els)).2.2 = _
  exact runBatchesAux_events env DELAY_BETWEEN_BATCHES els.length _ 0 cache

theorem setFullYear_monthday (d : JsDate) (y : Int) :
    ((d.setFullYear y).month = d.month ∧ (d.setFullYear y).day = d.day)
    ∨ (d.month = 1 ∧ d.day = 29
        ∧ (d.setFullYear y).month = 2 ∧ (d.setFullYear y).day = 1) := by
  unfold JsDate.setFullYear
  split
  next h => exact Or.inr ⟨h.1, h.2.1, rfl, rfl⟩
  next h => exact Or.inl ⟨rfl, rfl⟩

/-- C3 counterexample: for a February 29 release date (2000-02-29) and a
non-leap current year (today 2025-06-10), the result of
`calculateNextAnniversary` falls on March 1, so it does not share the
release date's month and day as the claim asserts. -/
theorem next_anniversary_C3_counterexample :
    ¬ sharesMonthDay
        (calculateNextAnniversary ⟨2025, 5, 10, 36000000⟩ ⟨2000, 1, 29, 0⟩)
        ⟨2000, 1, 29, 0⟩ := by
  decide

/-- C3 (amended): the result of `calculateNextAnniversary` is never before
the current instant, and it shares the release date's month and day except
when the release date is February 29 and the chosen year is not a leap
year, in which case it falls on March 1; when moving the release date to
the current year lands exactly on the current instant, that instant itself
is returned (no extra year is added). -/
theorem next_anniversary_C3 (today rel : JsDate)
    (ht : today.Valid) (hr : rel.Valid) :
    today.getTime ≤ (calculateNextAnniversary today rel).getTime
    ∧ (sharesMonthDay (calculateNextAnniversary today rel) rel
        ∨ (rel.month = 1 ∧ rel.day = 29
            ∧ (calculateNextAnniversary today rel).month = 2
            ∧ (calculateNextAnniversary today rel).day = 1))
    ∧ (rel.setFullYear today.year = today →
        calculateNextAnniversary today rel = today) := by
  have hvc : (rel.setFullYear today.year).Valid := hr.setFullYear _
  by_cases hlt : (rel.setFullYear today.year).getTime < today.getTime
  · have hres : calculateNextAnniversary today rel
        = (rel.setFullYear today.year).setFullYear (today.year + 1) := by
      unfold calculateNextAnniversary
      rw [if_pos hlt]
    have hv2 : ((rel.setFullYear today.year).setFullYear (today.year + 1)).Valid :=
      hvc.setFullYear _
    have hy2 : ((rel.setFullYear today.year).setFullYear (today.year + 1)).year
        = today.year + 1 := JsDate.setFullYear_year _ _
    refine ⟨?_, ?_, ?_⟩
    · rw [hres]
      exact le_of_lt (JsDate.getTime_lt_of_year_lt ht hv2 (by omega))
    · rw [hres]
      rcases setFullYear_monthday rel today.year with h1 | h1 <;>
        rcases setFullYear_monthday (rel.setFullYear today.year) (today.year + 1)
          with h2 | h2
      · exact Or.inl ⟨h2.1.trans h1.1, h2.2.trans h1.2⟩
      · obtain ⟨ha, hb⟩ := h1
        obtain ⟨hc, hd, he, hf⟩ := h2
        exact Or.inr ⟨by omega, by omega, he, hf⟩
      · obtain ⟨ha, hb, hc, hd⟩ := h1
        obtain ⟨he, hf⟩ := h2
        exact Or.inr ⟨ha, hb, by omega, by omega⟩
      · obtain ⟨ha, hb, hc, hd⟩ := h1
        obtain ⟨he, hf, hg, hh⟩ := h2
        exfalso
        omega
    · intro h
      rw [h] at hlt
      exact absurd hlt (lt_irrefl _)
  · have hres : calculateNextAnniversary today rel = rel.setFullYear today.year := by
      unfold calculateNextAnniversary
      rw [if_neg hlt]
    refine ⟨?_, ?_, ?_⟩
    · rw [hres]
      omega
    · rw [hres]
      rcases setFullYear_monthday rel today.year with h1 | h1
      · exact Or.inl ⟨h1.1, h1.2⟩
      · exact Or.inr h1
    · intro h
      rw [hres, h]

/-- C3 witness: release date 2000-06-15 with today 2025-06-10 (spec
example; the anniversary has not yet passed this year). -/
theorem next_anniversary_C3_witness :
    JsDate.Valid ⟨2025, 5, 10, 0⟩ ∧ JsDate.Valid ⟨2000, 5, 15, 0⟩
    ∧ (JsDate.getTime ⟨2025, 5, 10, 0⟩
        ≤ (calculateNextAnniversary ⟨2025, 5, 10, 0⟩ ⟨2000, 5, 15, 0⟩).getTime
      ∧ (sharesMonthDay
            (calculateNextAnniversary ⟨2025, 5, 10, 0⟩ ⟨2000, 5, 15, 0⟩)
            ⟨2000, 5, 15, 0⟩
          ∨ ((⟨2000, 5, 15, 0⟩ : JsDate).month = 1
              ∧ (⟨2000, 5, 15, 0⟩ : JsDate).day = 29
              ∧ (calculateNextAnniversary ⟨2025, 5, 10, 0⟩ ⟨2000, 5, 15, 0⟩).month = 2
              ∧ (calculateNextAnniversary ⟨2025, 5, 10, 0⟩ ⟨2000, 5, 15, 0⟩).day = 1))
      ∧ (JsDate.setFullYear ⟨2000, 5, 15, 0⟩ (⟨2025, 5, 10, 0⟩ : JsDate).year
            = ⟨2025, 5, 10, 0⟩ →
          calculateNextAnniversary ⟨2025, 5, 10, 0⟩ ⟨2000, 5, 15, 0⟩
            = ⟨2025, 5, 10, 0⟩)) :=
  ⟨by decide, by decide,
    next_anniversary_C3 ⟨2025, 5, 10, 0⟩ ⟨2000, 5, 15, 0⟩ (by decide) (by decide)⟩

/-- C7 counterexample: for a future release date (2030-12-31) and today
2025-06-10, `calculateNextMilestoneAnniversary` returns `years = -5`,
which is not a non-negative multiple of 5 as the claim asserts. -/
theorem milestone_C7_counterexample :
    (calculateNextMilestoneAnniversary ⟨2025, 5, 10, 0⟩ ⟨2030, 11, 31, 0⟩).2 = -5
    ∧ ¬ (0 ≤ (calculateNextMilestoneAnniversary ⟨2025, 5, 10, 0⟩ ⟨2030, 11, 31, 0⟩).2) := by
  decide

/-- C7 (amended): the returned date is never before the current instant
and the years value is always a multiple of 5; when the release year does
not exceed the current year (the claim's guarantee fails for future
release dates, where the years value can be negative) the years value is
non-negative and is the smallest non-negative multiple of 5 such that
shifting the release date by that many years (JavaScript `setFullYear`
semantics) lands on or after the current instant. -/
theorem milestone_C7 (today rel : JsDate) (k : Int)
    (ht : today.Valid) (hr : rel.Valid) :
    today.getTime ≤ (calculateNextMilestoneAnniversary today rel).1.getTime
    ∧ (calculateNextMilestoneAnniversary today rel).2 % 5 = 0
    ∧ (rel.year ≤ today.year → 0 ≤ (calculateNextMilestoneAnniversary today rel).2)
    ∧ (rel.year ≤ today.year → 0 ≤ k → k % 5 = 0 →
        k < (calculateNextMilestoneAnniversary today rel).2 →
        (rel.setFullYear (rel.year + k)).getTime < today.getTime) := by
  have hq : (today.year - rel.year + 4).fdiv 5 = (today.year - rel.year + 4) / 5 :=
    Int.fdiv_eq_ediv _ (by omega)
  have hcalc : calculateNextMilestoneAnniversary today rel
      = (if (rel.setFullYear
              (rel.year + ((today.year - rel.year + 4).fdiv 5) * 5)).getTime
            < today.getTime then
          ((rel.setFullYear
                (rel.year + ((today.year - rel.year + 4).fdiv 5) * 5)).setFullYear
              (rel.year + ((today.year - rel.year + 4).fdiv 5) * 5 + 5),
            ((today.year - rel.year + 4).fdiv 5) * 5 + 5)
        else
          (rel.setFullYear (rel.year + ((today.year - rel.year + 4).fdiv 5) * 5),
            ((today.year - rel.year + 4).fdiv 5) * 5)) := rfl
  have hm1 : today.year - rel.year ≤ ((today.year - rel.year + 4).fdiv 5) * 5 := by
    rw [hq]
    omega
  have hm2 : ((today.year - rel.year + 4).fdiv 5) * 5 < today.year - rel.year + 5 := by
    rw [hq]
    omega
  have hm5 : (((today.year - rel.year + 4).fdiv 5) * 5) % 5 = 0 := by
    omega
  have hvc : (rel.setFullYear
      (rel.year + ((today.year - rel.year + 4).fdiv 5) * 5)).Valid :=
    hr.setFullYear _
  have hyc : (rel.setFullYear
      (rel.year + ((today.year - rel.year + 4).fdiv 5) * 5)).year
      = rel.year + ((today.year - rel.year + 4).fdiv 5) * 5 :=
    JsDate.setFullYear_year _ _
  by_cases hlt : (rel.setFullYear
      (rel.year + ((today.year - rel.year + 4).fdiv 5) * 5)).getTime < today.getTime
  · rw [hcalc, if_pos hlt]
    dsimp only
    have hv2 : ((rel.setFullYear
        (rel.year + ((today.year - rel.year + 4).fdiv 5) * 5)).setFullYear
        (rel.year + ((today.year - rel.year + 4).fdiv 5) * 5 + 5)).Valid :=
      hvc.setFullYear _
    have hy2 : ((rel.setFullYear
        (rel.year + ((today.year - rel.year + 4).fdiv 5) * 5)).setFullYear
        (rel.year + ((today.year - rel.year + 4).fdiv 5) * 5 + 5)).year
        = rel.year + ((today.year - rel.year + 4).fdiv 5) * 5 + 5 :=
      JsDate.setFullYear_year _ _
    refine ⟨?_, by omega, by omega, ?_⟩
    · exact le_of_lt (JsDate.getTime_lt_of_year_lt ht hv2 (by omega))
    · intro hYr hk0 hk5 hklt
      by_cases hkm : k = ((today.year - rel.year + 4).fdiv 5) * 5
      · rw [hkm]
        exact hlt
      · have hk : k ≤ ((today.year - rel.year + 4).fdiv 5) * 5 - 5 := by omega
        refine JsDate.getTime_lt_of_year_lt (hr.setFullYear _) ht ?_
        rw [JsDate.setFullYear_year]
        omega
  · rw [hcalc, if_neg hlt]
    dsimp only
    refine ⟨by omega, by omega, by omega, ?_⟩
    intro hYr hk0 hk5 hklt
    have hk : k ≤ ((today.year - rel.year + 4).fdiv 5) * 5 - 5 := by omega
    refine JsDate.getTime_lt_of_year_lt (hr.setFullYear _) ht ?_
    rw [JsDate.setFullYear_year]
    omega

/-- C7 witness: the spec example — release 2000-01-01, today 2025-03-01;
the returned milestone is 30 years (2030-01-01), and `k = 25` (already
past) is correctly below the minimum. -/
theorem milestone_C7_witness :
    JsDate.Valid ⟨2025, 2, 1, 0⟩ ∧ JsDate.Valid ⟨2000, 0, 1, 0⟩
    ∧ (JsDate.getTime ⟨2025, 2, 1, 0⟩
        ≤ (calculateNextMilestoneAnniversary ⟨2025, 2, 1, 0⟩ ⟨2000, 0, 1, 0⟩).1.getTime
      ∧ (calculateNextMilestoneAnniversary ⟨2025, 2, 1, 0⟩ ⟨2000, 0, 1, 0⟩).2 % 5 = 0
      ∧ ((⟨2000, 0, 1, 0⟩ : JsDate).year ≤ (⟨2025, 2, 1, 0⟩ : JsDate).year →
          0 ≤ (calculateNextMilestoneAnniversary ⟨2025, 2, 1, 0⟩ ⟨2000, 0, 1, 0⟩).2)
      ∧ ((⟨2000, 0, 1, 0⟩ : JsDate).year ≤ (⟨2025, 2, 1, 0⟩ : JsDate).year →
          0 ≤ (25 : Int) → (25 : Int) % 5 = 0 →
          (25 : Int) < (calculateNextMilestoneAnniversary ⟨2025, 2, 1, 0⟩ ⟨2000, 0, 1, 0⟩).2 →
          (JsDate.setFullYear ⟨2000, 0, 1, 0⟩ ((⟨2000, 0, 1, 0⟩ : JsDate).year + 25)).getTime
            < JsDate.getTime ⟨2025, 2, 1, 0⟩)) :=
  ⟨by decide, by decide,
    milestone_C7 ⟨2025, 2, 1, 0⟩ ⟨2000, 0, 1, 0⟩ 25 (by decide) (by decide)⟩

/-- C2 counterexample: two items whose `nextAnniversary` times tie.  The
stable sort keeps them in input order, so permuting the input permutes the
output — the output order is not independent of input order as the claim
asserts. -/
theorem aggregator_C2_counterexample :
    (runListPage
        ⟨100, ⟨2025, 5, 10, 0⟩, fun _ => FetchOutcome.networkError, false, false⟩
        [("a", ⟨⟨2020, 0, 1, 0⟩, 0, ⟨2025, 8, 1, 0⟩⟩),
          ("b", ⟨⟨2021, 0, 1, 0⟩, 0, ⟨2025, 8, 1, 0⟩⟩)]
        [⟨some "a", some "ta"⟩, ⟨some "b", some "tb"⟩] 5 1000).1
      ≠ (runListPage
          ⟨100, ⟨2025, 5, 10, 0⟩, fun _ => FetchOutcome.networkError, false, false⟩
          [("a", ⟨⟨2020, 0, 1, 0⟩, 0, ⟨2025, 8, 1, 0⟩⟩),
            ("b", ⟨⟨2021, 0, 1, 0⟩, 0, ⟨2025, 8, 1, 0⟩⟩)]
          [⟨some "b", some "tb"⟩, ⟨some "a", some "ta"⟩] 5 1000).1 := by
  have e1 : chunkList 5 ([⟨some "a", some "ta"⟩, ⟨some "b", some "tb"⟩] :
      List PosterElement)
      = [[⟨some "a", some "ta"⟩, ⟨some "b", some "tb"⟩]] := by
    simp [chunkList]
  have e2 : chunkList 5 ([⟨some "b", some "tb"⟩, ⟨some "a", some "ta"⟩] :
      List PosterElement)
      = [[⟨some "b", some "tb"⟩, ⟨some "a", some "ta"⟩]] := by
    simp [chunkList]
  show sortMovies (runBatchesAux
      ⟨100, ⟨2025, 5, 10, 0⟩, fun _ => FetchOutcome.networkError, false, false⟩ 1000
      ([⟨some "a", some "ta"⟩, ⟨some "b", some "tb"⟩] : List PosterElement).length 0
      [("a", ⟨⟨2020, 0, 1, 0⟩, 0, ⟨2025, 8, 1, 0⟩⟩),
        ("b", ⟨⟨2021, 0, 1, 0⟩, 0, ⟨2025, 8, 1, 0⟩⟩)]
      (chunkList 5 [⟨some "a", some "ta"⟩, ⟨some "b", some "tb"⟩])).1
    ≠ sortMovies (runBatchesAux
      ⟨100, ⟨2025, 5, 10, 0⟩, fun _ => FetchOutcome.networkError, false, false⟩ 1000
      ([⟨some "b", some "tb"⟩, ⟨some "a", some "ta"⟩] : List PosterElement).length 0
      [("a", ⟨⟨2020, 0, 1, 0⟩, 0, ⟨2025, 8, 1, 0⟩⟩),
        ("b", ⟨⟨2021, 0, 1, 0⟩, 0, ⟨2025, 8, 1, 0⟩⟩)]
      (chunkList 5 [⟨some "b", some "tb"⟩, ⟨some "a", some "ta"⟩])).1
  rw [e1, e2]
  decide

/-- C2 (amended): the pipeline output is exactly the stable ascending sort
by `nextAnniversary` of the successful resolutions taken in input order
(failures dropped, all successes kept); per key, tied items keep their
original input order; and whenever the retained items' keys are pairwise
distinct, the sorted output is determined by the multiset of items alone —
independent of their order (completion order never influences the result,
as `Promise.all` delivers results in input index order). -/
theorem aggregator_C2 (env : ResolveEnv) (cache : Cache)
    (els : List PosterElement) (B d : Nat) (k : Int)
    (l l2 : List MovieAnniversary) (hp : l.Perm l2)
    (hnd : List.Pairwise (fun a b => annivKey a ≠ annivKey b) l) :
    (runListPage env cache els B d).1
      = sortMovies ((resolveBatch env cache els).1.filterMap id)
    ∧ List.Sorted annivLE (runListPage env cache els B d).1
    ∧ ((runListPage env cache els B d).1.filter (fun m => decide (annivKey m = k))
        = ((resolveBatch env cache els).1.filterMap id).filter
            (fun m => decide (annivKey m = k)))
    ∧ sortMovies l = sortMovies l2 := by
  have h1 : (runListPage env cache els B d).1
      = sortMovies ((resolveBatch env cache els).1.filterMap id) := by
    show sortMovies (runBatchesAux env d els.length 0 cache (chunkList B els)).1 = _
    rw [runBatchesAux_kept, chunkList_flatten]
  refine ⟨h1, ?_, ?_, sortMovies_perm_invariant l l2 hp hnd⟩
  · rw [h1]
    exact List.sorted_insertionSort annivLE _
  · rw [h1]
    exact sortMovies_stable _ k

/-- C2 witness: two successes with distinct anniversary keys, presented to
the aggregator in both orders. -/
theorem aggregator_C2_witness :
    List.Perm
        [(⟨"x", ⟨2000, 0, 1, 0⟩, ⟨2025, 0, 15, 0⟩, "ux"⟩ : MovieAnniversary),
          ⟨"y", ⟨2001, 0, 1, 0⟩, ⟨2025, 2, 1, 0⟩, "uy"⟩]
        [⟨"y", ⟨2001, 0, 1, 0⟩, ⟨2025, 2, 1, 0⟩, "uy"⟩,
          ⟨"x", ⟨2000, 0, 1, 0⟩, ⟨2025, 0, 15, 0⟩, "ux"⟩]
    ∧ ((runListPage
          ⟨0, ⟨2025, 5, 10, 0⟩, fun _ => FetchOutcome.networkError, false, false⟩
          [] [] 5 1000).1
        = sortMovies ((resolveBatch
            ⟨0, ⟨2025, 5, 10, 0⟩, fun _ => FetchOutcome.networkError, false, false⟩
            [] []).1.filterMap id)
      ∧ List.Sorted annivLE (runListPage
          ⟨0, ⟨2025, 5, 10, 0⟩, fun _ => FetchOutcome.networkError, false, false⟩
          [] [] 5 1000).1
      ∧ ((runListPage
            ⟨0, ⟨2025, 5, 10, 0⟩, fun _ => FetchOutcome.networkError, false, false⟩
            [] [] 5 1000).1.filter (fun m => decide (annivKey m = 0))
          = ((resolveBatch
              ⟨0, ⟨2025, 5, 10, 0⟩, fun _ => FetchOutcome.networkError, false, false⟩
              [] []).1.filterMap id).filter (fun m => decide (annivKey m = 0)))
      ∧ sortMovies
            [⟨"x", ⟨2000, 0, 1, 0⟩, ⟨2025, 0, 15, 0⟩, "ux"⟩,
              ⟨"y", ⟨2001, 0, 1, 0⟩, ⟨2025, 2, 1, 0⟩, "uy"⟩]
          = sortMovies
              [⟨"y", ⟨2001, 0, 1, 0⟩, ⟨2025, 2, 1, 0⟩, "uy"⟩,
                ⟨"x", ⟨2000, 0, 1, 0⟩, ⟨2025, 0, 15, 0⟩, "ux"⟩]) :=
  ⟨List.Perm.swap _ _ _,
    aggregator_C2
      ⟨0, ⟨2025, 5, 10, 0⟩, fun _ => FetchOutcome.networkError, false, false⟩
      [] [] 5 1000 0
      [⟨"x", ⟨2000, 0, 1, 0⟩, ⟨2025, 0, 15, 0⟩, "ux"⟩,
        ⟨"y", ⟨2001, 0, 1, 0⟩, ⟨2025, 2, 1, 0⟩, "uy"⟩]
      [⟨"y", ⟨2001, 0, 1, 0⟩, ⟨2025, 2, 1, 0⟩, "uy"⟩,
        ⟨"x", ⟨2000, 0, 1, 0⟩, ⟨2025, 0, 15, 0⟩, "ux"⟩]
      (List.Perm.swap _ _ _) (by decide)⟩

theorem resolveFetch_networkError (env : ResolveEnv) (cache : Cache) (u t : String)
    (hf : env.fetch u = .networkError) :
    resolveFetch env cache u t = (none, cache, true) := by
  unfold resolveFetch
  rw [hf]

theorem resolveFetch_setFails (env : ResolveEnv) (cache : Cache) (u t : String)
    (relD : JsDate) (hf : env.fetch u = .ok relD) (hs : env.setFails = true) :
    resolveFetch env cache u t = (none, cache, true) := by
  unfold resolveFetch
  rw [hf]
  simp [hs]

theorem resolveFetch_ok (env : ResolveEnv) (cache : Cache) (u t : String)
    (relD : JsDate) (hf : env.fetch u = .ok relD) (hs : env.setFails = false) :
    resolveFetch env cache u t
      = (some ⟨t, relD, calculateNextAnniversary env.today relD, u⟩,
          (u, ⟨relD, env.now, calculateNextAnniversary env.today relD⟩) :: cache,
          true) := by
  unfold resolveFetch
  rw [hf]
  simp [hs]

theorem resolveMovie_miss (env : ResolveEnv) (cache : Cache) (el : PosterElement)
    (url title : String) (hl : el.link = some url) (ht : el.title = some title)
    (hne : title ≠ "") (hg : env.getFails = false)
    (hv : hasValidEntry env.now cache url = false) :
    resolveMovie env cache el = resolveFetch env cache url title := by
  rw [resolveMovie_eq env cache url title el hl ht, if_neg hne,
    if_neg (by simp [hg])]
  unfold hasValidEntry at hv
  rcases hlook : List.lookup url cache with _ | mc
  · rfl
  · rw [hlook] at hv
    dsimp only at hv ⊢
    rw [if_neg (by simp [hv])]

theorem resolveMovie_hit (env : ResolveEnv) (cache : Cache) (el : PosterElement)
    (url title : String) (entry : CacheEntry)
    (hl : el.link = some url) (ht : el.title = some title)
    (hne : title ≠ "") (hg : env.getFails = false)
    (hlook : List.lookup url cache = some entry)
    (hu : cacheUsable env.now entry.lastFetched = true) :
    resolveMovie env cache el
      = (some ⟨title, entry.releaseDate, entry.nextAnniversary, url⟩, cache, false) := by
  rw [resolveMovie_eq env cache url title el hl ht, if_neg hne,
    if_neg (by simp [hg]), hlook]
  dsimp only
  rw [if_pos hu]

/-- C4 counterexample: with a rejecting storage `get` the item resolves to
`null` and no fetch is issued (the claim asserts resolution proceeds to the
fetch path), and with a rejecting storage `set` after a successful fetch the
item also resolves to `null` (the claim asserts the freshly computed value
is still returned). -/
theorem storage_failures_C4_counterexample :
    (resolveMovie
        ⟨0, ⟨2025, 5, 10, 0⟩, fun _ => FetchOutcome.ok ⟨2000, 5, 15, 0⟩, true, false⟩
        [] ⟨some "u", some "t"⟩).1 = none
    ∧ (resolveMovie
        ⟨0, ⟨2025, 5, 10, 0⟩, fun _ => FetchOutcome.ok ⟨2000, 5, 15, 0⟩, true, false⟩
        [] ⟨some "u", some "t"⟩).2.2 = false
    ∧ (resolveMovie
        ⟨0, ⟨2025, 5, 10, 0⟩, fun _ => FetchOutcome.ok ⟨2000, 5, 15, 0⟩, false, true⟩
        [] ⟨some "u", some "t"⟩).1 = none := by
  decide

/-- C4 (amended): both storage failures are fatal to the affected item
only — a rejected cache read makes the item resolve to `null` without any
fetch, and a rejected cache write after a successful fetch makes the item
resolve to `null`, discarding the freshly computed value; in both cases
the cache document is left unchanged and no error escapes the item. -/
theorem storage_failures_C4 (env : ResolveEnv) (cache : Cache)
    (el : PosterElement) (url title : String) (relD : JsDate)
    (hl : el.link = some url) (ht : el.title = some title) (hne : title ≠ "") :
    (env.getFails = true → resolveMovie env cache el = (none, cache, false))
    ∧ (env.getFails = false → env.setFails = true →
        hasValidEntry env.now cache url = false → env.fetch url = .ok relD →
        resolveMovie env cache el = (none, cache, true)) := by
  constructor
  · intro hg
    rw [resolveMovie_eq env cache url title el hl ht, if_neg hne, if_pos (by simp [hg])]
  · intro hg hs hv hf
    rw [resolveMovie_miss env cache el url title hl ht hne hg hv,
      resolveFetch_setFails env cache url title relD hf hs]

/-- C4 witness: a concrete item whose cache write rejects after a
successful fetch. -/
theorem storage_failures_C4_witness :
    ((⟨0, ⟨2025, 5, 10, 0⟩, fun _ => FetchOutcome.ok ⟨2000, 5, 15, 0⟩, false, true⟩ :
        ResolveEnv).getFails = true →
      resolveMovie
          ⟨0, ⟨2025, 5, 10, 0⟩, fun _ => FetchOutcome.ok ⟨2000, 5, 15, 0⟩, false, true⟩
          [] ⟨some "u", some "t"⟩ = (none, [], false))
    ∧ ((⟨0, ⟨2025, 5, 10, 0⟩, fun _ => FetchOutcome.ok ⟨2000, 5, 15, 0⟩, false, true⟩ :
          ResolveEnv).getFails = false →
        (⟨0, ⟨2025, 5, 10, 0⟩, fun _ => FetchOutcome.ok ⟨2000, 5, 15, 0⟩, false, true⟩ :
          ResolveEnv).setFails = true →
        hasValidEntry 0 [] "u" = false →
        (⟨0, ⟨2025, 5, 10, 0⟩, fun _ => FetchOutcome.ok ⟨2000, 5, 15, 0⟩, false, true⟩ :
          ResolveEnv).fetch "u" = .ok ⟨2000, 5, 15, 0⟩ →
        resolveMovie
            ⟨0, ⟨2025, 5, 10, 0⟩, fun _ => FetchOutcome.ok ⟨2000, 5, 15, 0⟩, false, true⟩
            [] ⟨some "u", some "t"⟩ = (none, [], true)) :=
  storage_failures_C4
    ⟨0, ⟨2025, 5, 10, 0⟩, fun _ => FetchOutcome.ok ⟨2000, 5, 15, 0⟩, false, true⟩
    [] ⟨some "u", some "t"⟩ "u" "t" ⟨2000, 5, 15, 0⟩ rfl rfl (by decide)

/-- C5: one item's failure is item-local — the run's output is exactly the
sorted list of successes (only failed items are omitted, in particular all
other items' results are kept), every batch still reports progress
(`⌈N/B⌉` reports regardless of failures), and a network-failing item
resolves to `null` leaving the cache document untouched. -/
theorem partial_failure_C5 (env : ResolveEnv) (cache failCache : Cache)
    (els : List PosterElement) (B d : Nat) (el : PosterElement)
    (url title : String) (hB : 0 < B)
    (hl : el.link = some url) (ht : el.title = some title) (hne : title ≠ "")
    (hg : env.getFails = false)
    (hv : hasValidEntry env.now failCache url = false)
    (hf : env.fetch url = .networkError) :
    (runListPage env cache els B d).1
      = sortMovies ((resolveBatch env cache els).1.filterMap id)
    ∧ (progressCounts (runListPage env cache els B d).2.2).length
        = (els.length + B - 1) / B
    ∧ resolveMovie env failCache el = (none, failCache, true) := by
  refine ⟨?_, ?_, ?_⟩
  · show sortMovies (runBatchesAux env d els.length 0 cache (chunkList B els)).1 = _
    rw [runBatchesAux_kept, chunkList_flatten]
  · have hpc : progressCounts (runListPage env cache els B d).2.2
        = runningTotals 0 ((chunkList B els).map List.length) := by
      show progressCounts
          (runBatchesAux env d els.length 0 cache (chunkList B els)).2.2 = _
      rw [runBatchesAux_events_progress]
    rw [hpc, runningTotals_length, List.length_map, chunkList_length B hB els]
  · rw [resolveMovie_miss env failCache el url title hl ht hne hg hv,
      resolveFetch_networkError env failCache url title hf]

/-- C5 witness: the spec's partial-failure scenario — five references where
item 3's fetch fails; the successes are exactly items 1, 2, 4, 5 in order. -/
theorem partial_failure_C5_witness :
    ((resolveBatch
        ⟨0, ⟨2025, 5, 10, 0⟩,
          fun u => if u = "u3" then FetchOutcome.networkError
            else FetchOutcome.ok ⟨2000, 5, 15, 0⟩, false, false⟩
        []
        [⟨some "u1", some "t1"⟩, ⟨some "u2", some "t2"⟩, ⟨some "u3", some "t3"⟩,
          ⟨some "u4", some "t4"⟩, ⟨some "u5", some "t5"⟩]).1.filterMap id).map
        MovieAnniversary.title = ["t1", "t2", "t4", "t5"]
    ∧ ((runListPage
          ⟨0, ⟨2025, 5, 10, 0⟩,
            fun u => if u = "u3" then FetchOutcome.networkError
              else FetchOutcome.ok ⟨2000, 5, 15, 0⟩, false, false⟩
          []
          [⟨some "u1", some "t1"⟩, ⟨some "u2", some "t2"⟩, ⟨some "u3", some "t3"⟩,
            ⟨some "u4", some "t4"⟩, ⟨some "u5", some "t5"⟩] 5 1000).1
        = sortMovies ((resolveBatch
            ⟨0, ⟨2025, 5, 10, 0⟩,
              fun u => if u = "u3" then FetchOutcome.networkError
                else FetchOutcome.ok ⟨2000, 5, 15, 0⟩, false, false⟩
            []
            [⟨some "u1", some "t1"⟩, ⟨some "u2", some "t2"⟩, ⟨some "u3", some "t3"⟩,
              ⟨some "u4", some "t4"⟩, ⟨some "u5", some "t5"⟩]).1.filterMap id)
      ∧ (progressCounts (runListPage
            ⟨0, ⟨2025, 5, 10, 0⟩,
              fun u => if u = "u3" then FetchOutcome.networkError
                else FetchOutcome.ok ⟨2000, 5, 15, 0⟩, false, false⟩
            []
            [⟨some "u1", some "t1"⟩, ⟨some "u2", some "t2"⟩, ⟨some "u3", some "t3"⟩,
              ⟨some "u4", some "t4"⟩, ⟨some "u5", some "t5"⟩] 5 1000).2.2).length
          = (([⟨some "u1", some "t1"⟩, ⟨some "u2", some "t2"⟩, ⟨some "u3", some "t3"⟩,
              ⟨some "u4", some "t4"⟩, ⟨some "u5", some "t5"⟩] :
              List PosterElement).length + 5 - 1) / 5
      ∧ resolveMovie
            ⟨0, ⟨2025, 5, 10, 0⟩,
              fun u => if u = "u3" then FetchOutcome.networkError
                else FetchOutcome.ok ⟨2000, 5, 15, 0⟩, false, false⟩
            [] ⟨some "u3", some "t3"⟩ = (none, [], true)) :=
  ⟨by decide,
    partial_failure_C5
      ⟨0, ⟨2025, 5, 10, 0⟩,
        fun u => if u = "u3" then FetchOutcome.networkError
          else FetchOutcome.ok ⟨2000, 5, 15, 0⟩, false, false⟩
      [] []
      [⟨some "u1", some "t1"⟩, ⟨some "u2", some "t2"⟩, ⟨some "u3", some "t3"⟩,
        ⟨some "u4", some "t4"⟩, ⟨some "u5", some "t5"⟩]
      5 1000 ⟨some "u3", some "t3"⟩ "u3" "t3" (by decide)
      rfl rfl (by decide) rfl (by decide) (by decide)⟩

/-- C6: resolving the same reference a second time within the 24-hour
window of a first successful (fetched) resolution returns the identical
`MovieAnniversary` value — reusing the stored `releaseDate` and
`nextAnniversary` — performs no second fetch, and leaves the cache
unchanged; the second call's current date, fetch oracle and storage-write
behaviour are arbitrary and uninspected. -/
theorem idempotence_C6 (t0 t1 : Int) (today0 today1 : JsDate)
    (fetch0 fetch1 : String → FetchOutcome) (sf1 : Bool)
    (cache : Cache) (el : PosterElement) (url title : String) (relD : JsDate)
    (hl : el.link = some url) (ht : el.title = some title) (hne : title ≠ "")
    (hmiss : hasValidEntry t0 cache url = false)
    (hfetch : fetch0 url = .ok relD)
    (hwin : t1 - t0 < CACHE_EXPIRY) :
    resolveMovie ⟨t0, today0, fetch0, false, false⟩ cache el
      = (some ⟨title, relD, calculateNextAnniversary today0 relD, url⟩,
          (url, ⟨relD, t0, calculateNextAnniversary today0 relD⟩) :: cache, true)
    ∧ resolveMovie ⟨t1, today1, fetch1, false, sf1⟩
          ((url, ⟨relD, t0, calculateNextAnniversary today0 relD⟩) :: cache) el
        = (some ⟨title, relD, calculateNextAnniversary today0 relD, url⟩,
            (url, ⟨relD, t0, calculateNextAnniversary today0 relD⟩) :: cache,
            false) := by
  constructor
  · rw [resolveMovie_miss ⟨t0, today0, fetch0, false, false⟩ cache el url title
        hl ht hne rfl hmiss,
      resolveFetch_ok ⟨t0, today0, fetch0, false, false⟩ cache url title relD
        hfetch rfl]
  · refine resolveMovie_hit ⟨t1, today1, fetch1, false, sf1⟩ _ el url title
      ⟨relD, t0, calculateNextAnniversary today0 relD⟩ hl ht hne rfl ?_ ?_
    · simp [List.lookup]
    · simp only [cacheUsable, decide_eq_true_eq]
      exact hwin

/-- C6 witness: a concrete reference fetched once at time 0 and re-resolved
at time 1000 under a different current date and a failing fetch oracle. -/
theorem idempotence_C6_witness :
    resolveMovie
        ⟨0, ⟨2025, 5, 10, 0⟩, fun _ => FetchOutcome.ok ⟨2000, 5, 15, 0⟩, false, false⟩
        [] ⟨some "u", some "t"⟩
      = (some ⟨"t", ⟨2000, 5, 15, 0⟩,
            calculateNextAnniversary ⟨2025, 5, 10, 0⟩ ⟨2000, 5, 15, 0⟩, "u"⟩,
          [("u", ⟨⟨2000, 5, 15, 0⟩, 0,
            calculateNextAnniversary ⟨2025, 5, 10, 0⟩ ⟨2000, 5, 15, 0⟩⟩)], true)
    ∧ resolveMovie
          ⟨1000, ⟨2026, 0, 1, 0⟩, fun _ => FetchOutcome.networkError, false, true⟩
          [("u", ⟨⟨2000, 5, 15, 0⟩, 0,
            calculateNextAnniversary ⟨2025, 5, 10, 0⟩ ⟨2000, 5, 15, 0⟩⟩)]
          ⟨some "u", some "t"⟩
        = (some ⟨"t", ⟨2000, 5, 15, 0⟩,
              calculateNextAnniversary ⟨2025, 5, 10, 0⟩ ⟨2000, 5, 15, 0⟩, "u"⟩,
            [("u", ⟨⟨2000, 5, 15, 0⟩, 0,
              calculateNextAnniversary ⟨2025, 5, 10, 0⟩ ⟨2000, 5, 15, 0⟩⟩)], false) :=
  idempotence_C6 0 1000 ⟨2025, 5, 10, 0⟩ ⟨2026, 0, 1, 0⟩
    (fun _ => FetchOutcome.ok ⟨2000, 5, 15, 0⟩) (fun _ => FetchOutcome.networkError)
    true [] ⟨some "u", some "t"⟩ "u" "t" ⟨2000, 5, 15, 0⟩
    rfl rfl (by decide) (by decide) rfl (by decide)
